import Mathlib

/-!
Shallow embedding of the core logic of `src/app.py` (a Streamlit shapefile
viewer): CRS normalization (`load_shapefile`), CSV loading with trial-based
encoding/delimiter detection (`load_csv`), timestamp sanitization
(`convert_timestamps`), and the sidebar filter dispatch (`gdf_filtered`,
`df_filtered_csv`), together with theorems settling the spec's claims.
-/

namespace ShapeViewer

/-- Planar coordinates of one geometry, kept abstract: reprojection acts on it
through an arbitrary transform function supplied as a parameter. -/
structure Geom where
  x : Int
  y : Int
deriving DecidableEq, Repr

/-- One feature of the GeoDataFrame: geometry plus the attribute columns that
the sidebar filters read (`UF`, `EMPRESA`, `FAZENDA`, `MUNICIPIO`). -/
structure Feature where
  geom : Geom
  uf : String
  empresa : String
  fazenda : String
  municipio : String
deriving DecidableEq, Repr

/-- A GeoDataFrame: an optional CRS identifier (undefined CRS = `none`) and an
ordered list of features. -/
structure Collection where
  crs : Option String
  features : List Feature
deriving DecidableEq, Repr

def wgs84 : String := "EPSG:4326"

/-- `gdf.to_crs(target)`: reprojects every geometry from the source CRS to the
target.  When the collection's CRS is undefined (naive geometries) geopandas
raises, modelled as `none`. -/
def to_crs (transform : String → String → Geom → Geom) (c : Collection)
    (target : String) : Option Collection :=
  match c.crs with
  | none => none
  | some src =>
      some ⟨some target,
        c.features.map (fun f => { f with geom := transform src target f.geom })⟩

/-- `load_shapefile` (src/app.py lines 24-34), after the file has been read:
if the CRS differs from EPSG:4326 reproject, otherwise return as-is; any
exception is caught and `None` is returned. -/
def load_shapefile (transform : String → String → Geom → Geom)
    (c : Collection) : Option Collection :=
  if c.crs ≠ some wgs84 then to_crs transform c wgs84 else some c

lemma load_shapefile_crs_aux (t : String → String → Geom → Geom)
    (c c' : Collection) (h : load_shapefile t c = some c') :
    c'.crs = some wgs84 := by
  unfold load_shapefile at h
  by_cases hc : c.crs = some wgs84
  · simp [hc] at h
    subst h
    exact hc
  · simp [hc] at h
    unfold to_crs at h
    cases hcr : c.crs with
    | none => simp [hcr] at h
    | some src =>
        simp [hcr] at h
        rw [← h]

/-- A sample transform (swaps coordinates), standing in for an arbitrary
CRS-to-CRS coordinate transformation in concrete evaluations. -/
def exT : String → String → Geom → Geom := fun _ _ g => ⟨g.y, g.x⟩

def exFeature : Feature := ⟨⟨1, 2⟩, "MT", "Acme", "North", "Cuiaba"⟩

def cUTM : Collection := ⟨some "EPSG:31982", [exFeature]⟩

def cOut : Collection := ⟨some wgs84, [⟨⟨2, 1⟩, "MT", "Acme", "North", "Cuiaba"⟩]⟩

/-- C1. Every non-error result of `load_shapefile` has CRS EPSG:4326: an input
already in EPSG:4326 is returned as-is, and an input with a different declared
CRS is reprojected feature-by-feature to EPSG:4326. -/
theorem load_shapefile_always_wgs84 (t : String → String → Geom → Geom)
    (c c' : Collection) (h : load_shapefile t c = some c') :
    c'.crs = some wgs84
    ∧ (c.crs = some wgs84 → c' = c)
    ∧ (∀ src, c.crs = some src → src ≠ wgs84 →
        c' = ⟨some wgs84,
          c.features.map (fun f => { f with geom := t src wgs84 f.geom })⟩) := by
  refine ⟨load_shapefile_crs_aux t c c' h, ?_, ?_⟩
  · intro hc
    unfold load_shapefile at h
    simp [hc] at h
    exact h.symm
  · intro src hsrc hne
    unfold load_shapefile to_crs at h
    have hcne : c.crs ≠ some wgs84 := by simp [hsrc, hne]
    simp [hcne, hsrc, hne] at h
    exact h.symm

/-- C1 witness: evaluates `load_shapefile` on a concrete UTM collection and
reads off the resulting CRS. -/
theorem load_shapefile_always_wgs84_witness :
    Collection.crs cOut = some wgs84 :=
  (load_shapefile_always_wgs84 exT cUTM cOut (by decide)).1

/-- C5 counterexample: a collection with undefined CRS is not assigned any
fallback CRS and reprojected; `load_shapefile` errors out (returns `none`)
instead of producing a collection in EPSG:4326. -/
theorem load_shapefile_no_fallback_cex :
    load_shapefile exT ⟨none, [exFeature]⟩ = none := by decide

/-- C5 amended: `load_shapefile` has no fallback-CRS parameter; for every
collection whose CRS is undefined, reprojection raises and the loader returns
an error (`none`), regardless of the coordinate transform in effect. -/
theorem load_shapefile_undefined_crs_errors
    (t : String → String → Geom → Geom) (c : Collection)
    (h : c.crs = none) : load_shapefile t c = none := by
  unfold load_shapefile to_crs
  simp [h, wgs84]

/-- C5 amended witness: concrete undefined-CRS collection yields an error. -/
theorem load_shapefile_undefined_crs_errors_witness :
    load_shapefile exT ⟨none, []⟩ = none :=
  load_shapefile_undefined_crs_errors exT ⟨none, []⟩ (by decide)

/-- C6. `load_shapefile` is idempotent: any non-error output is a fixed point,
and in particular a collection already in EPSG:4326 is returned unchanged. -/
theorem load_shapefile_idempotent (t : String → String → Geom → Geom)
    (c c' : Collection) (h : load_shapefile t c = some c') :
    load_shapefile t c' = some c'
    ∧ (∀ d : Collection, d.crs = some wgs84 → load_shapefile t d = some d) := by
  have hw : ∀ d : Collection, d.crs = some wgs84 → load_shapefile t d = some d := by
    intro d hd
    unfold load_shapefile
    simp [hd]
  exact ⟨hw c' (load_shapefile_crs_aux t c c' h), hw⟩

/-- C6 witness: normalizing a concrete collection and normalizing the result
again returns the result unchanged. -/
theorem load_shapefile_idempotent_witness :
    load_shapefile exT cOut = some cOut :=
  (load_shapefile_idempotent exT cUTM cOut (by decide)).1

/-- The `tipo_dado` selectbox enumeration (src/app.py line 190): 'Todos os
Dados', 'Dados por Estado', 'Dados por Empresa', 'Dados Empresa/Fazenda',
'Dados por Município'. -/
inductive TipoDado
  | todos
  | porEstado
  | porEmpresa
  | empresaFazenda
  | porMunicipio
deriving DecidableEq, Repr

/-- pandas elementwise equality `df[col] == sel` where `sel` is a Python value
that may be `None`: comparison against `None` is elementwise `False`. -/
def attrEq (v : String) : Option String → Bool
  | none => false
  | some s => v == s

/-- Python truthiness of a selectbox result: `None` and the empty string are
falsy. -/
def truthy : Option String → Bool
  | none => false
  | some s => !(s == "")

/-- The sidebar filter dispatch on the GeoDataFrame (src/app.py lines
199-244): each mode narrows `gdf` by equality predicates; the two-level modes
guard on the truthiness of the parent selection and otherwise leave
`gdf_filtered` as the full copy of `gdf`. -/
def gdf_filtered (gdf : List Feature) (tipo : TipoDado)
    (selUF selEmpresa selFazenda selMunicipio : Option String) : List Feature :=
  match tipo with
  | .todos => gdf
  | .porEstado => gdf.filter (fun r => attrEq r.uf selUF)
  | .porEmpresa => gdf.filter (fun r => attrEq r.empresa selEmpresa)
  | .empresaFazenda =>
      if truthy selEmpresa then
        gdf.filter (fun r => attrEq r.empresa selEmpresa && attrEq r.fazenda selFazenda)
      else gdf
  | .porMunicipio =>
      if truthy selUF then
        gdf.filter (fun r => attrEq r.uf selUF && attrEq r.municipio selMunicipio)
      else gdf

def exFeature2 : Feature := ⟨⟨3, 4⟩, "SP", "Beta", "South", "Campinas"⟩

def gdf0 : List Feature := [exFeature, exFeature2]

/-- C2. Filter correctness of the sidebar dispatch: mode 'Todos os Dados'
returns the full collection; the one-level modes keep exactly the rows whose
attribute equals the selection; the two-level modes, once the parent selection
is defined (truthy), keep exactly the rows satisfying the conjunction of both
equality predicates. -/
theorem gdf_filtered_correct (gdf : List Feature) (r : Feature)
    (sUF sEmp sFaz sMun : Option String) (u e f m : String) :
    (gdf_filtered gdf .todos sUF sEmp sFaz sMun = gdf)
    ∧ (r ∈ gdf_filtered gdf .porEstado (some u) sEmp sFaz sMun ↔
        r ∈ gdf ∧ r.uf = u)
    ∧ (r ∈ gdf_filtered gdf .porEmpresa sUF (some e) sFaz sMun ↔
        r ∈ gdf ∧ r.empresa = e)
    ∧ (e ≠ "" →
        (r ∈ gdf_filtered gdf .empresaFazenda sUF (some e) (some f) sMun ↔
          r ∈ gdf ∧ r.empresa = e ∧ r.fazenda = f))
    ∧ (u ≠ "" →
        (r ∈ gdf_filtered gdf .porMunicipio (some u) sEmp sFaz (some m) ↔
          r ∈ gdf ∧ r.uf = u ∧ r.municipio = m)) := by
  refine ⟨rfl, ?_, ?_, ?_, ?_⟩
  · simp [gdf_filtered, attrEq, List.mem_filter]
  · simp [gdf_filtered, attrEq, List.mem_filter]
  · intro he
    simp [gdf_filtered, truthy, he, attrEq, List.mem_filter, and_assoc]
  · intro hu
    simp [gdf_filtered, truthy, hu, attrEq, List.mem_filter, and_assoc]

/-- C2 witness: the Empresa/Fazenda filter instantiated on a concrete
two-feature collection with Empresa "Acme", Fazenda "North". -/
theorem gdf_filtered_correct_witness :
    exFeature ∈ gdf_filtered gdf0 .empresaFazenda none (some "Acme") (some "North") none ↔
      exFeature ∈ gdf0 ∧ exFeature.empresa = "Acme" ∧ exFeature.fazenda = "North" :=
  (gdf_filtered_correct gdf0 exFeature none (some "Acme") (some "North") none
    "u" "Acme" "North" "m").2.2.2.1 (by decide)

/-- C4 counterexample: in mode 'Dados Empresa/Fazenda' with the parent
(Empresa) selection undefined, the code returns the FULL one-feature
collection, not an empty filtered view. -/
theorem gdf_filtered_undefined_parent_cex :
    gdf_filtered [exFeature] .empresaFazenda none none none none = [exFeature]
    ∧ [exFeature] ≠ ([] : List Feature) := by decide

/-- C4 amended: in the two-level modes, an undefined or empty (falsy) parent
selection skips the filter block entirely and yields the full unfiltered
collection; a truthy parent with an undefined child yields an empty view,
because equality against an undefined selection matches no row; no case
raises. -/
theorem gdf_filtered_undefined_selection (gdf : List Feature) (e u : String)
    (s2 s3 : Option String) (he : e ≠ "") (hu : u ≠ "") :
    (gdf_filtered gdf .empresaFazenda s2 none s3 none = gdf)
    ∧ (gdf_filtered gdf .empresaFazenda s2 (some "") s3 none = gdf)
    ∧ (gdf_filtered gdf .empresaFazenda s2 (some e) none none = [])
    ∧ (gdf_filtered gdf .porMunicipio none s2 s3 none = gdf)
    ∧ (gdf_filtered gdf .porMunicipio (some "") s2 s3 none = gdf)
    ∧ (gdf_filtered gdf .porMunicipio (some u) s2 s3 none = []) := by
  refine ⟨rfl, ?_, ?_, rfl, ?_, ?_⟩
  · simp [gdf_filtered, truthy]
  · simp [gdf_filtered, truthy, he, attrEq]
  · simp [gdf_filtered, truthy]
  · simp [gdf_filtered, truthy, hu, attrEq]

/-- C4 amended witness: concrete evaluations of the undefined-selection
behavior on a one-feature collection. -/
theorem gdf_filtered_undefined_selection_witness :
    gdf_filtered [exFeature] .empresaFazenda none none none none = [exFeature]
    ∧ gdf_filtered [exFeature] .empresaFazenda none (some "Acme") none none = [] := by
  have h := gdf_filtered_undefined_selection [exFeature] "Acme" "MT" none none
    (by decide) (by decide)
  exact ⟨h.1, h.2.2.1⟩

/-- `sorted(gdf[gdf['EMPRESA'] == p]['FAZENDA'].unique())` (src/app.py line
223): distinct FAZENDA values of the rows whose EMPRESA equals the selected
parent, sorted ascending.  pandas `.unique()` keeps first occurrences, as
`List.dedup` does. -/
def fazenda_options (gdf : List Feature) (p : String) : List String :=
  List.insertionSort (· ≤ ·)
    (((gdf.filter (fun r => r.empresa == p)).map Feature.fazenda).dedup)

/-- `sorted(gdf[gdf['UF'] == p]['MUNICIPIO'].unique())` (src/app.py line 237). -/
def municipio_options (gdf : List Feature) (p : String) : List String :=
  List.insertionSort (· ≤ ·)
    (((gdf.filter (fun r => r.uf == p)).map Feature.municipio).dedup)

lemma child_options_sound (gdf : List Feature) (p : String)
    (parentAttr childAttr : Feature → String) :
    (List.insertionSort (· ≤ ·)
        (((gdf.filter (fun r => parentAttr r == p)).map childAttr).dedup)).Sorted (· ≤ ·)
    ∧ (List.insertionSort (· ≤ ·)
        (((gdf.filter (fun r => parentAttr r == p)).map childAttr).dedup)).Nodup
    ∧ ∀ a, a ∈ List.insertionSort (· ≤ ·)
        (((gdf.filter (fun r => parentAttr r == p)).map childAttr).dedup) ↔
          ∃ r ∈ gdf, parentAttr r = p ∧ childAttr r = a := by
  refine ⟨List.sorted_insertionSort _ _, ?_, ?_⟩
  · exact ((List.perm_insertionSort _ _).nodup_iff).mpr (List.nodup_dedup _)
  · intro a
    rw [List.mem_insertionSort, List.mem_dedup, List.mem_map]
    constructor
    · rintro ⟨r, hr, hc⟩
      rw [List.mem_filter] at hr
      exact ⟨r, hr.1, by simpa using hr.2, hc⟩
    · rintro ⟨r, hr, hp, hc⟩
      exact ⟨r, List.mem_filter.mpr ⟨hr, by simpa using hp⟩, hc⟩

/-- C7. Child-option soundness: after selecting parent `p`, `fazenda_options`
(resp. `municipio_options`) is sorted ascending, duplicate-free, and contains
exactly the distinct FAZENDA (resp. MUNICIPIO) values among the rows whose
EMPRESA (resp. UF) equals `p`. -/
theorem child_options_correct (gdf : List Feature) (p : String) :
    ((fazenda_options gdf p).Sorted (· ≤ ·)
      ∧ (fazenda_options gdf p).Nodup
      ∧ ∀ a, a ∈ fazenda_options gdf p ↔
          ∃ r ∈ gdf, r.empresa = p ∧ r.fazenda = a)
    ∧ ((municipio_options gdf p).Sorted (· ≤ ·)
      ∧ (municipio_options gdf p).Nodup
      ∧ ∀ a, a ∈ municipio_options gdf p ↔
          ∃ r ∈ gdf, r.uf = p ∧ r.municipio = a) :=
  ⟨child_options_sound gdf p Feature.empresa Feature.fazenda,
   child_options_sound gdf p Feature.uf Feature.municipio⟩

/-- One record of the climate CSV, carrying the attribute values the filters
read.  Whether a column actually exists in the file is recorded separately in
`Csv.cols`. -/
structure CsvRow where
  uf : String
  empresa : String
  fazenda : String
  municipio : String
deriving DecidableEq, Repr

/-- The climate DataFrame: its column-name set plus its ordered rows. -/
structure Csv where
  cols : List String
  rows : List CsvRow
deriving DecidableEq, Repr

/-- The tab-4 CSV filter chain (src/app.py lines 334-355): each `elif` guards
on the mode, the truthiness of the selections, and (for the two-level modes in
an inner `if`) the presence of BOTH column names; otherwise the DataFrame is
left as the full copy. -/
def df_filtered_csv (df : Csv) (tipo : TipoDado)
    (selUF selEmpresa selFazenda selMunicipio : Option String) : Csv :=
  if tipo == .porEstado && truthy selUF && df.cols.contains "UF" then
    { df with rows := df.rows.filter (fun r => attrEq r.uf selUF) }
  else if tipo == .porEmpresa && truthy selEmpresa && df.cols.contains "EMPRESA" then
    { df with rows := df.rows.filter (fun r => attrEq r.empresa selEmpresa) }
  else if tipo == .empresaFazenda && truthy selEmpresa && truthy selFazenda then
    if df.cols.contains "EMPRESA" && df.cols.contains "FAZENDA" then
      { df with rows := df.rows.filter (fun r => attrEq r.empresa selEmpresa && attrEq r.fazenda selFazenda) }
    else df
  else if tipo == .porMunicipio && truthy selUF && truthy selMunicipio then
    if df.cols.contains "UF" && df.cols.contains "MUNICIPIO" then
      { df with rows := df.rows.filter (fun r => attrEq r.uf selUF && attrEq r.municipio selMunicipio) }
    else df
  else df

def csvRowA : CsvRow := ⟨"MT", "Acme", "North", "Cuiaba"⟩

def csvRowB : CsvRow := ⟨"SP", "Beta", "South", "Campinas"⟩

/-- A CSV that has an EMPRESA column but no FAZENDA column. -/
def csvNoFazenda : Csv := ⟨["EMPRESA"], [csvRowA, csvRowB]⟩

/-- C9 counterexample: in mode 'Dados Empresa/Fazenda', when the CSV lacks the
FAZENDA column but has EMPRESA, the code skips BOTH equality terms and returns
the full dataset — it does not apply the remaining EMPRESA term, so a returned
row can violate the still-applicable EMPRESA == "Acme" predicate. -/
theorem df_filtered_csv_skips_both_cex :
    df_filtered_csv csvNoFazenda .empresaFazenda none (some "Acme") (some "North") none
      = csvNoFazenda
    ∧ csvRowB ∈ (df_filtered_csv csvNoFazenda .empresaFazenda none (some "Acme")
        (some "North") none).rows
    ∧ csvRowB.empresa ≠ "Acme" := by decide

/-- C9 amended: the CSV filter applies the same equality predicates as the
GeoDataFrame filter per mode, but column presence is checked per mode, not per
term: a one-level mode whose column is absent skips its single term (full
data), and a two-level mode applies its two terms only when BOTH columns are
present — if either is absent, both terms are skipped and the full dataset is
returned; the filter never fails. -/
theorem df_filtered_csv_column_presence (df : Csv) (e f u m : String)
    (he : e ≠ "") (hf : f ≠ "") (hu : u ≠ "") (hm : m ≠ "") :
    ("UF" ∈ df.cols →
      df_filtered_csv df .porEstado (some u) none none none
        = { df with rows := df.rows.filter (fun r => r.uf == u) })
    ∧ ("UF" ∉ df.cols →
      df_filtered_csv df .porEstado (some u) none none none = df)
    ∧ ("EMPRESA" ∈ df.cols ∧ "FAZENDA" ∈ df.cols →
      df_filtered_csv df .empresaFazenda none (some e) (some f) none
        = { df with rows := df.rows.filter (fun r => r.empresa == e && r.fazenda == f) })
    ∧ (¬("EMPRESA" ∈ df.cols ∧ "FAZENDA" ∈ df.cols) →
      df_filtered_csv df .empresaFazenda none (some e) (some f) none = df)
    ∧ ("UF" ∈ df.cols ∧ "MUNICIPIO" ∈ df.cols →
      df_filtered_csv df .porMunicipio (some u) none none (some m)
        = { df with rows := df.rows.filter (fun r => r.uf == u && r.municipio == m) })
    ∧ (¬("UF" ∈ df.cols ∧ "MUNICIPIO" ∈ df.cols) →
      df_filtered_csv df .porMunicipio (some u) none none (some m) = df) := by
  refine ⟨?_, ?_, ?_, ?_, ?_, ?_⟩ <;> intro hcol <;>
    simp [df_filtered_csv, truthy, attrEq, he, hf, hu, hm, hcol]

/-- C9 amended witness: concrete evaluations on the EMPRESA-only CSV (both
terms skipped) and on a full-schema CSV (both terms applied). -/
theorem df_filtered_csv_column_presence_witness :
    df_filtered_csv csvNoFazenda .empresaFazenda none (some "Acme") (some "North") none
      = csvNoFazenda
    ∧ df_filtered_csv ⟨["EMPRESA", "FAZENDA"], [csvRowA, csvRowB]⟩ .empresaFazenda
        none (some "Acme") (some "North") none
      = ⟨["EMPRESA", "FAZENDA"], [csvRowA]⟩ := by
  have h1 := (df_filtered_csv_column_presence csvNoFazenda "Acme" "North" "u" "m"
    (by decide) (by decide) (by decide) (by decide)).2.2.2.1 (by decide)
  have h2 := (df_filtered_csv_column_presence ⟨["EMPRESA", "FAZENDA"], [csvRowA, csvRowB]⟩
    "Acme" "North" "u" "m" (by decide) (by decide) (by decide) (by decide)).2.2.1 (by decide)
  refine ⟨h1, ?_⟩
  rw [h2]
  decide

/-- C10. A filter pass never mutates its inputs (the embedding is pure and
both dispatches return views derived by `List.filter` or the identity), and
the filtered view is a subsequence of the source in source order: for every
mode and selection, the filtered GeoDataFrame is a sublist of `gdf`, and the
filtered CSV keeps the column set and its rows form a sublist of the source
rows. -/
theorem filtered_views_are_sublists (gdf : List Feature) (df : Csv)
    (tipo : TipoDado) (s1 s2 s3 s4 : Option String) :
    (gdf_filtered gdf tipo s1 s2 s3 s4).Sublist gdf
    ∧ (df_filtered_csv df tipo s1 s2 s3 s4).rows.Sublist df.rows
    ∧ (df_filtered_csv df tipo s1 s2 s3 s4).cols = df.cols := by
  refine ⟨?_, ?_, ?_⟩
  · cases tipo <;> simp only [gdf_filtered] <;>
      first
        | exact List.Sublist.refl _
        | exact List.filter_sublist _
        | split <;> first
            | exact List.Sublist.refl _
            | exact List.filter_sublist _
  · unfold df_filtered_csv
    repeat' split
    all_goals first
      | exact List.Sublist.refl _
      | exact List.filter_sublist _
  · unfold df_filtered_csv
    repeat' split
    all_goals rfl

/-- pandas column dtypes relevant to sanitization: datetime64[ns], object
(strings or arbitrary Python objects), a numeric dtype, and the geometry
dtype of a GeoDataFrame. -/
inductive Dtype
  | datetime64
  | objectD
  | int64
  | geometry
deriving DecidableEq, Repr

/-- Scalar cell values: a timestamp, a missing timestamp (NaT), a string, a
null/NaN, a number, or an arbitrary non-primitive object. -/
inductive Val
  | vTimestamp (t : Nat)
  | vNaT
  | vStr (s : String)
  | vNull
  | vNum (n : Int)
  | vObj (tag : String)
deriving DecidableEq, Repr

/-- Python `str()` rendering of a cell value, as used by `astype(str)`. -/
def valToStr : Val → String
  | .vTimestamp t => "timestamp-" ++ toString t
  | .vNaT => "NaT"
  | .vStr s => s
  | .vNull => "None"
  | .vNum n => toString n
  | .vObj tag => tag

/-- One named, typed column of a (Geo)DataFrame. -/
structure Column where
  name : String
  dtype : Dtype
  values : List Val
deriving DecidableEq, Repr

/-- `convert_timestamps` (src/app.py lines 77-82): copies the frame and, for
exactly the columns selected by `select_dtypes(include=['datetime64[ns]'])`,
applies `astype(str)`, which renders every value (including NaT) as a string
and leaves the column object-typed; every other column is untouched. -/
def convert_timestamps (df : List Column) : List Column :=
  df.map (fun c =>
    if c.dtype == .datetime64 then
      { c with dtype := .objectD, values := c.values.map (fun v => .vStr (valToStr v)) }
    else c)

/-- The attribute-sanitizer contract as the spec states it, written for
comparison with `convert_timestamps`: temporal columns are stringified, and
arbitrary/mixed (object-typed) non-geometry columns have each non-null value
stringified with nulls preserved. -/
def sanitize_spec (df : List Column) : List Column :=
  df.map (fun c =>
    if c.dtype == .datetime64 then
      { c with dtype := .objectD, values := c.values.map (fun v => .vStr (valToStr v)) }
    else if c.dtype == .objectD then
      { c with values := c.values.map (fun v => if v == .vNull then v else .vStr (valToStr v)) }
    else c)

/-- An object-typed column holding an arbitrary (non-string) value. -/
def dfObj : List Column := [⟨"OBS", .objectD, [.vObj "shape"]⟩]

/-- C8 counterexample: `convert_timestamps` leaves an arbitrary/mixed-typed
(object) column completely untouched — its non-null values are NOT converted
to strings — so it differs from the sanitizer contract `sanitize_spec` stated
by the claim. -/
theorem convert_timestamps_object_cex :
    convert_timestamps dfObj = dfObj
    ∧ convert_timestamps dfObj ≠ sanitize_spec dfObj := by decide

/-- C8 amended: `convert_timestamps` converts every value of each
datetime64[ns]-typed column to its string rendering (the column becoming
object-typed) and leaves every other column — object/mixed, numeric and
geometry alike — exactly unchanged; being a total function of the embedding it
never raises. -/
theorem convert_timestamps_datetime_only (df : List Column) (i : Nat)
    (c : Column) (h : df[i]? = some c) :
    (c.dtype = .datetime64 →
      (convert_timestamps df)[i]? =
        some ⟨c.name, .objectD, c.values.map (fun v => .vStr (valToStr v))⟩)
    ∧ (c.dtype ≠ .datetime64 → (convert_timestamps df)[i]? = some c) := by
  constructor <;> intro hd <;>
    simp [convert_timestamps, List.getElem?_map, h, hd]

/-- A frame with one datetime column and one string column. -/
def dfDt : List Column :=
  [⟨"DATA", .datetime64, [.vTimestamp 5, .vNaT]⟩, ⟨"UF", .objectD, [.vStr "MT"]⟩]

/-- C8 amended witness: evaluating `convert_timestamps` on a concrete frame:
the datetime column is stringified, the object column is unchanged. -/
theorem convert_timestamps_datetime_only_witness :
    (convert_timestamps dfDt)[0]? =
      some ⟨"DATA", .objectD,
        [Val.vTimestamp 5, Val.vNaT].map (fun v => .vStr (valToStr v))⟩
    ∧ (convert_timestamps dfDt)[1]? = some ⟨"UF", .objectD, [.vStr "MT"]⟩ :=
  ⟨(convert_timestamps_datetime_only dfDt 0 ⟨"DATA", .datetime64, [.vTimestamp 5, .vNaT]⟩
      (by decide)).1 (by decide),
   (convert_timestamps_datetime_only dfDt 1 ⟨"UF", .objectD, [.vStr "MT"]⟩
      (by decide)).2 (by decide)⟩

/-- A raw parsed CSV frame: column names and cell rows. -/
structure RawFrame where
  cols : List String
  cells : List (List Val)
deriving DecidableEq, Repr

/-- Python `str.strip()`: removes leading and trailing whitespace. -/
def stripStr (s : String) : String :=
  ⟨((s.data.dropWhile Char.isWhitespace).reverse.dropWhile Char.isWhitespace).reverse⟩

/-- The cleanup applied inside each successful parse branch of `load_csv`
(src/app.py lines 47-50, 56-58): strip whitespace from column names, drop
fully-empty rows (`dropna(how='all')`), and strip whitespace from string cell
values. -/
def cleanFrame (df : RawFrame) : RawFrame :=
  ⟨df.cols.map (fun s => stripStr s),
   (df.cells.filter (fun row => !row.all (fun v => v == Val.vNull))).map
     (fun row => row.map (fun v =>
       match v with
       | Val.vStr s => Val.vStr (stripStr s)
       | v => v))⟩

/-- The encoding trial list of `load_csv` (src/app.py line 40). -/
def encodings : List String := ["utf-8", "latin-1", "iso-8859-1", "cp1252", "utf-16"]

/-- `load_csv` (src/app.py lines 36-67), parametrized by the parser: `read enc
sep` is `pd.read_csv(file_path, encoding=enc, sep=sep)`, returning `none` when
the parse raises.  For each encoding in order, semicolon is tried first and
comma second; the first parse that does not raise is cleaned and returned; if
every combination raises, an error (`none`) is reported. -/
def load_csv (read : String → Char → Option RawFrame) : Option RawFrame :=
  encodings.findSome? (fun enc =>
    match read enc ';' with
    | some df => some (cleanFrame df)
    | none =>
        match read enc ',' with
        | some df => some (cleanFrame df)
        | none => none)

/-- The flattened trial order of `load_csv`: each encoding with semicolon
before comma. -/
def tryOrder : List (String × Char) :=
  [("utf-8", ';'), ("utf-8", ','), ("latin-1", ';'), ("latin-1", ','),
   ("iso-8859-1", ';'), ("iso-8859-1", ','), ("cp1252", ';'), ("cp1252", ','),
   ("utf-16", ';'), ("utf-16", ',')]

lemma findSome?_enc_pairs (read : String → Char → Option RawFrame)
    (es : List String) :
    es.findSome? (fun enc =>
      match read enc ';' with
      | some df => some (cleanFrame df)
      | none =>
          match read enc ',' with
          | some df => some (cleanFrame df)
          | none => none)
    = (es.flatMap (fun e => [(e, ';'), (e, ',')])).findSome?
        (fun p => (read p.1 p.2).map cleanFrame) := by
  induction es with
  | nil => rfl
  | cons e es ih =>
      rw [List.flatMap_cons, List.findSome?_append, List.findSome?_cons]
      cases h1 : read e ';' <;> cases h2 : read e ',' <;>
        simp [List.findSome?_cons, List.findSome?_nil, h1, h2, ih, Option.or]

/-- A comma-delimited file misread with semicolon: everything collapses into
one column. -/
def oneCol : RawFrame := ⟨["a,b"], [[Val.vStr "x,y"]]⟩

/-- The same file read with the right delimiter: more than one column. -/
def threeCol : RawFrame := ⟨["a", "b", "c"], [[Val.vStr "x", Val.vStr "y", Val.vStr "z"]]⟩

/-- A parser for which (utf-8, ';') succeeds with exactly one column while
(utf-8, ',') would succeed with three columns. -/
def readOneCol : String → Char → Option RawFrame := fun enc sep =>
  if enc == "utf-8" && sep == ';' then some oneCol
  else if enc == "utf-8" && sep == ',' then some threeCol
  else none

/-- C3 counterexample: `load_csv` accepts the very first error-free parse even
when it yields exactly one column — the one-column (utf-8, ';') result is
returned and the three-column (utf-8, ',') combination is never tried, so a
one-column parse is NOT rejected as the claim states. -/
theorem load_csv_accepts_one_column_cex :
    load_csv readOneCol = some (cleanFrame oneCol)
    ∧ (cleanFrame oneCol).cols.length = 1
    ∧ readOneCol "utf-8" ',' = some threeCol
    ∧ threeCol.cols.length > 1
    ∧ load_csv readOneCol ≠ some (cleanFrame threeCol) := by decide

/-- C3 amended: `load_csv` returns the cleaned result of the FIRST (encoding,
delimiter) combination in the fixed trial order (each encoding with semicolon
before comma) whose parse does not raise, with no requirement on the number of
columns: its result equals a first-success search over the flattened trial
order. -/
theorem load_csv_eq_first_parse (read : String → Char → Option RawFrame) :
    load_csv read = tryOrder.findSome? (fun p => (read p.1 p.2).map cleanFrame) := by
  unfold load_csv
  rw [findSome?_enc_pairs read encodings]
  rfl

end ShapeViewer
